import Mathlib

/-!
Shallow embedding of the shader background renderer in
`src/frontend/src/components/ui/shader-lines.tsx` (the `ShaderAnimation`
component): its uniform store, the component-level mutable refs, the
per-frame `animate` tick, the edge-triggered effect bodies, the window
resize handler, `initThreeJS` and the unmount cleanup.  JavaScript floats
are modelled as exact rationals; a thrown JavaScript exception is modelled
as an `Option InitError` result (statements after the throwing statement
do not execute, and the partial local state is discarded).
-/

/-- The uniform store created in `initThreeJS` (source lines 125-136):
one field per shader uniform, floats as `ℚ`, the `resolution` 2-vector
split into its two components. -/
structure Uniforms where
  time : ℚ
  resolutionX : ℚ
  resolutionY : ℚ
  progress : ℚ
  currentStep : ℚ
  totalSteps : ℚ
  rippleTime : ℚ
  isRippling : ℚ
  textTime : ℚ
  isTextAnimating : ℚ
  freezeTime : ℚ

/-- The component-level mutable refs of `ShaderAnimation` (source lines
23-28): `rippleTimeRef`, `isRipplingRef`, `textTimeRef`,
`isTextAnimatingRef`, `noMoreRingsRef`, `hasCompletedRef`. -/
structure Refs where
  rippleTime : ℚ
  isRippling : Bool
  textTime : ℚ
  isTextAnimating : Bool
  noMoreRings : Bool
  hasCompleted : Bool

/-- Initial ref values at mount: `useRef(0)` / `useRef(false)`. -/
def Refs.initial : Refs :=
  { rippleTime := 0, isRippling := false, textTime := 0
    isTextAnimating := false, noMoreRings := false, hasCompleted := false }

/-- The WebGL renderer as far as the component observes it: the scale
set by `renderer.setPixelRatio(window.devicePixelRatio)`, the drawable
buffer size of `renderer.domElement` (set by `renderer.setSize`, which
multiplies the CSS size by the pixel scale), and whether `dispose()` has
been called on it. -/
structure RendererState where
  pixelScale : ℚ
  domElementW : ℚ
  domElementH : ℚ
  disposed : Bool

/-- The props of the `ShaderAnimation` component (source lines 12-22). -/
structure Props where
  currentStep : ℚ
  totalSteps : ℚ
  progress : ℚ
  rippleEffect : Bool
  textAnimation : Bool
  isCompleteRipple : Bool
  fadeOut : Bool

/-- The state the frame loop operates on once `initThreeJS` has stored
its references: the uniform store, the refs and the renderer. -/
structure EngineState where
  uniforms : Uniforms
  refs : Refs
  renderer : RendererState

/-- The uniforms as initialized in `initThreeJS` (source lines 125-136):
`time` starts at `1.0`, `resolution` at the zero vector, the prop-driven
uniforms at the current prop values, everything else at `0`. -/
def initialUniforms (progress currentStep totalSteps : ℚ) : Uniforms :=
  { time := 1, resolutionX := 0, resolutionY := 0
    progress := progress, currentStep := currentStep, totalSteps := totalSteps
    rippleTime := 0, isRippling := 0, textTime := 0, isTextAnimating := 0
    freezeTime := 0 }

/-- The `onWindowResize` handler (source lines 378-383):
`renderer.setSize(rect.width, rect.height)` resizes the drawable buffer
(scaled by the device pixel scale), then the `resolution` uniform is set
from `renderer.domElement.width` / `.height`, in the same synchronous
call. -/
def onWindowResize (rectW rectH : ℚ) (s : EngineState) : EngineState :=
  { s with
    renderer := { s.renderer with
      domElementW := rectW * s.renderer.pixelScale
      domElementH := rectH * s.renderer.pixelScale }
    uniforms := { s.uniforms with
      resolutionX := rectW * s.renderer.pixelScale
      resolutionY := rectH * s.renderer.pixelScale } }

/-- One execution of the `animate` body (source lines 389-432), minus the
rescheduling and the draw call, neither of which changes this state:
  * if `isRipplingRef` is set, add `0.04` to `rippleTimeRef`, publish it
    to the `rippleTime` uniform, and use ripple speed `0.05` for the
    frame; if the incremented value reached `1.0`, clear `isRipplingRef`
    (ref and uniform) and reset `rippleTimeRef` to `0` (the uniform keeps
    the incremented value), and when the `isCompleteRipple` prop is set,
    also set `hasCompletedRef`, `noMoreRingsRef`, and capture the current
    `time` uniform into `freezeTime`;
  * if `isTextAnimatingRef` is set, add `0.015` to `textTimeRef` and
    publish it to the `textTime` uniform;
  * advance the `time` uniform by the frame speed (`0.015` ambient,
    `0.05` while rippling) unless `hasCompletedRef` is set, the check
    happening after the ripple block possibly set it;
  * finally copy `progress`, `currentStep`, `totalSteps` from the props
    into the uniforms. -/
def animateTick (p : Props) (s : EngineState) : EngineState :=
  let afterRipple : EngineState :=
    if s.refs.isRippling then
      if s.refs.rippleTime + 4/100 ≥ 1 then
        if p.isCompleteRipple then
          { s with
            refs := { s.refs with rippleTime := 0, isRippling := false,
                                  hasCompleted := true, noMoreRings := true }
            uniforms := { s.uniforms with
                          rippleTime := s.refs.rippleTime + 4/100,
                          isRippling := 0, freezeTime := s.uniforms.time } }
        else
          { s with
            refs := { s.refs with rippleTime := 0, isRippling := false }
            uniforms := { s.uniforms with
                          rippleTime := s.refs.rippleTime + 4/100,
                          isRippling := 0 } }
      else
        { s with
          refs := { s.refs with rippleTime := s.refs.rippleTime + 4/100 }
          uniforms := { s.uniforms with
                        rippleTime := s.refs.rippleTime + 4/100 } }
    else s
  let speed : ℚ := if s.refs.isRippling then 5/100 else 15/1000
  let afterText : EngineState :=
    if afterRipple.refs.isTextAnimating then
      { afterRipple with
        refs := { afterRipple.refs with
          textTime := afterRipple.refs.textTime + 15/1000 }
        uniforms := { afterRipple.uniforms with
          textTime := afterRipple.refs.textTime + 15/1000 } }
    else afterRipple
  let afterTime : EngineState :=
    if afterText.refs.hasCompleted then afterText
    else { afterText with
      uniforms := { afterText.uniforms with
        time := afterText.uniforms.time + speed } }
  { afterTime with
    uniforms := { afterTime.uniforms with
      progress := p.progress, currentStep := p.currentStep
      totalSteps := p.totalSteps } }

/-- Body of the `rippleEffect` effect (source lines 86-93) as run on a
false-to-true edge of the `rippleEffect` prop while the uniforms exist:
guarded only by `!isRipplingRef.current`; when it fires it sets
`isRipplingRef` and zeroes `rippleTimeRef`, mirroring both into the
uniforms.  Note the guard does not consult `noMoreRingsRef` or
`hasCompletedRef`. -/
def rippleTrigger (s : EngineState) : EngineState :=
  if s.refs.isRippling then s
  else
    { s with
      refs := { s.refs with isRippling := true, rippleTime := 0 }
      uniforms := { s.uniforms with isRippling := 1, rippleTime := 0 } }

/-- Body of the `textAnimation` effect (source lines 96-103) as run on a
false-to-true edge of the `textAnimation` prop while the uniforms exist:
guarded by `!isTextAnimatingRef.current`; when it fires it sets
`isTextAnimatingRef` and zeroes `textTimeRef`, mirroring both into the
uniforms.  `isTextAnimatingRef` is never cleared anywhere in the
source. -/
def textTrigger (s : EngineState) : EngineState :=
  if s.refs.isTextAnimating then s
  else
    { s with
      refs := { s.refs with isTextAnimating := true, textTime := 0 }
      uniforms := { s.uniforms with isTextAnimating := 1, textTime := 0 } }

/-- Body of the prop-sync effect (source lines 77-83): copies the
`progress`, `currentStep` and `totalSteps` props into the uniforms when
they change. -/
def propsUpdate (progress currentStep totalSteps : ℚ) (s : EngineState) :
    EngineState :=
  { s with uniforms := { s.uniforms with
      progress := progress, currentStep := currentStep
      totalSteps := totalSteps } }

/-- The events that can act on a mounted engine between draws: a frame
tick (with the prop values its closure sees), a false-to-true edge of the
`rippleEffect` prop, a false-to-true edge of the `textAnimation` prop, a
change of the numeric props, and a window resize. -/
inductive Event where
  | tick (p : Props)
  | rippleEdge
  | textEdge
  | propsChange (progress currentStep totalSteps : ℚ)
  | resize (rectW rectH : ℚ)

/-- Interpretation of one event on the engine state. -/
def stepEvent : Event → EngineState → EngineState
  | .tick p, s => animateTick p s
  | .rippleEdge, s => rippleTrigger s
  | .textEdge, s => textTrigger s
  | .propsChange pr cs ts, s => propsUpdate pr cs ts s
  | .resize w h, s => onWindowResize w h s

/-- Run a list of events in order. -/
def runEvents : List Event → EngineState → EngineState
  | [], s => s
  | e :: evs, s => runEvents evs (stepEvent e s)

/-- The engine state assembled by a successful `initThreeJS` just before
the first `animate()` call: fresh uniforms from the current props, a
fresh renderer with the given pixel scale, the component's current refs,
and one synchronous `onWindowResize()` call (source line 385). -/
def initEngine (pixelScale rectW rectH : ℚ) (p : Props) (refs : Refs) :
    EngineState :=
  onWindowResize rectW rectH
    { uniforms := initialUniforms p.progress p.currentStep p.totalSteps
      refs := refs
      renderer := { pixelScale := pixelScale, domElementW := 0
                    domElementH := 0, disposed := false } }

/-- The scene data stored in `sceneRef` after a successful init. -/
structure SceneData where
  uniforms : Uniforms
  renderer : RendererState

/-- The whole component instance as the lifecycle operations see it: the
refs, the optional initialized scene (`sceneRef.current.uniforms` is null
before init), whether an animation frame is currently scheduled
(`animationId`), and how many `resize` listeners the component has added
to `window`. -/
structure ComponentState where
  refs : Refs
  scene : Option SceneData
  animationScheduled : Bool
  windowResizeListeners : ℕ

/-- A freshly rendered, not yet initialized component instance. -/
def ComponentState.fresh : ComponentState :=
  { refs := Refs.initial, scene := none, animationScheduled := false
    windowResizeListeners := 0 }

/-- Environment `initThreeJS` runs against: whether
`containerRef.current` is non-null, whether `window.THREE` is loaded,
whether constructing the `THREE.ShaderMaterial` succeeds, the device
pixel scale and the container's bounding rectangle. -/
structure InitEnv where
  containerAvailable : Bool
  threeAvailable : Bool
  shaderCompiles : Bool
  pixelScale : ℚ
  rectW : ℚ
  rectH : ℚ

/-- The one failure `initThreeJS` can propagate in this model. -/
inductive InitError where
  | shaderCompileFailed

/-- The `initThreeJS` function (source lines 105-435).  Returns the
component state after the call together with the exception that escaped,
if any:
  * if the container or `window.THREE` is missing, it returns immediately
    (source line 106): no state is touched and no error is raised;
  * if constructing the shader material throws, the exception propagates
    out of `initThreeJS` (there is no try/catch in the source) before
    `sceneRef` is assigned, before the resize listener is added and
    before `animate()` runs, so the component state is unchanged;
  * otherwise it builds the scene, stores it, registers one window
    resize listener (source line 386) and calls `animate()` (source line
    434), whose first run schedules the next frame and executes one tick
    body synchronously. -/
def initThreeJS (env : InitEnv) (p : Props) (c : ComponentState) :
    ComponentState × Option InitError :=
  if ¬(env.containerAvailable ∧ env.threeAvailable) then (c, none)
  else if ¬env.shaderCompiles then (c, some InitError.shaderCompileFailed)
  else
    let engine0 := initEngine env.pixelScale env.rectW env.rectH p c.refs
    let engine1 := animateTick p engine0
    ({ refs := engine1.refs
       scene := some { uniforms := engine1.uniforms
                       renderer := engine1.renderer }
       animationScheduled := true
       windowResizeListeners := c.windowResizeListeners + 1 }, none)

/-- The unmount cleanup of the first effect (source lines 62-73): cancel
the scheduled animation frame if any, call `renderer.dispose()` if a
renderer exists, and remove the injected script tag.  The source contains
no `removeEventListener` call, so the window resize listener count is
left untouched. -/
def cleanupEffect (c : ComponentState) : ComponentState :=
  let c1 := { c with animationScheduled := false }
  match c1.scene with
  | none => c1
  | some d =>
      { c1 with scene := some { d with
          renderer := { d.renderer with disposed := true } } }

/-- The props of a plain mount: defaults of the component signature. -/
def defaultProps : Props :=
  { currentStep := 1, totalSteps := 3, progress := 0
    rippleEffect := false, textAnimation := false
    isCompleteRipple := false, fadeOut := false }

/-- Props of a mount whose ripple is flagged as the completion ripple. -/
def completionProps : Props :=
  { currentStep := 1, totalSteps := 3, progress := 0
    rippleEffect := true, textAnimation := false
    isCompleteRipple := true, fadeOut := false }

/-- The resolution uniform agrees with the renderer's drawable buffer
size: the property every drawn frame is claimed to satisfy. -/
def resolutionMatchesBuffer (s : EngineState) : Prop :=
  s.uniforms.resolutionX = s.renderer.domElementW ∧
  s.uniforms.resolutionY = s.renderer.domElementH

/-- A concrete mid-ripple state: a ripple has been running for 24 ticks
(`rippleTime = 0.96`), the ambient clock stands at `2`. -/
def rippleRipeState : EngineState :=
  { uniforms := { initialUniforms 0 1 3 with
                  isRippling := 1, rippleTime := 96/100, time := 2 }
    refs := { Refs.initial with isRippling := true, rippleTime := 96/100 }
    renderer := { pixelScale := 1, domElementW := 800, domElementH := 600
                  disposed := false } }

/-- The state one completion tick later: the completion ripple has just
finished and the engine is frozen. -/
def frozenState : EngineState := animateTick completionProps rippleRipeState

/-- A concrete state whose text-reveal timer has been started. -/
def textState : EngineState :=
  { uniforms := { initialUniforms 0 1 3 with
                  isTextAnimating := 1, textTime := 3/100 }
    refs := { Refs.initial with isTextAnimating := true, textTime := 3/100 }
    renderer := { pixelScale := 1, domElementW := 800, domElementH := 600
                  disposed := false } }

/-- An environment in which `initThreeJS` fully succeeds. -/
def goodEnv : InitEnv :=
  { containerAvailable := true, threeAvailable := true
    shaderCompiles := true, pixelScale := 1, rectW := 800, rectH := 600 }

/-- An environment whose shader material construction throws. -/
def badShaderEnv : InitEnv :=
  { containerAvailable := true, threeAvailable := true
    shaderCompiles := false, pixelScale := 1, rectW := 800, rectH := 600 }

/-- An environment where the GPU backend script has not loaded yet. -/
def noThreeEnv : InitEnv :=
  { containerAvailable := true, threeAvailable := false
    shaderCompiles := true, pixelScale := 1, rectW := 800, rectH := 600 }

/-! ## Shared invariant lemmas -/

/-- Once `hasCompletedRef` is set, any single event keeps it set and
leaves the `time` uniform unchanged: ticks skip the time advance (source
lines 423-425), and no other event touches either field. -/
lemma stepEvent_frozen (e : Event) (s : EngineState)
    (h : s.refs.hasCompleted = true) :
    (stepEvent e s).refs.hasCompleted = true ∧
    (stepEvent e s).uniforms.time = s.uniforms.time := by
  cases e <;>
    simp only [stepEvent, animateTick, rippleTrigger, textTrigger,
      propsUpdate, onWindowResize] <;>
    first
    | (split_ifs <;> simp_all)
    | simp_all

/-- `stepEvent_frozen` extended to any event sequence. -/
lemma runEvents_frozen (evs : List Event) (s : EngineState)
    (h : s.refs.hasCompleted = true) :
    (runEvents evs s).refs.hasCompleted = true ∧
    (runEvents evs s).uniforms.time = s.uniforms.time := by
  induction evs generalizing s with
  | nil => exact ⟨h, rfl⟩
  | cons e evs ih =>
      obtain ⟨h1, h2⟩ := stepEvent_frozen e s h
      obtain ⟨h3, h4⟩ := ih (stepEvent e s) h1
      refine ⟨h3, ?_⟩
      simp only [runEvents]
      rw [h4, h2]

/-- No event changes the renderer's pixel scale. -/
lemma stepEvent_pixelScale (e : Event) (s : EngineState) :
    (stepEvent e s).renderer.pixelScale = s.renderer.pixelScale := by
  cases e <;>
    simp only [stepEvent, animateTick, rippleTrigger, textTrigger,
      propsUpdate, onWindowResize] <;>
    split_ifs <;> rfl

/-- `stepEvent_pixelScale` extended to any event sequence. -/
lemma runEvents_pixelScale (evs : List Event) (s : EngineState) :
    (runEvents evs s).renderer.pixelScale = s.renderer.pixelScale := by
  induction evs generalizing s with
  | nil => rfl
  | cons e evs ih =>
      simp only [runEvents]
      rw [ih (stepEvent e s), stepEvent_pixelScale]

/-- A tick never touches the resolution uniform or the renderer. -/
lemma animateTick_resolution (p : Props) (s : EngineState) :
    (animateTick p s).uniforms.resolutionX = s.uniforms.resolutionX ∧
    (animateTick p s).uniforms.resolutionY = s.uniforms.resolutionY ∧
    (animateTick p s).renderer = s.renderer := by
  simp only [animateTick]
  split_ifs <;> simp

/-- Every event preserves agreement of the resolution uniform with the
drawable buffer size: a resize overwrites both with the same values in
one synchronous call, and nothing else touches either. -/
lemma stepEvent_resolution (e : Event) (s : EngineState)
    (h : resolutionMatchesBuffer s) :
    resolutionMatchesBuffer (stepEvent e s) := by
  cases e <;>
    simp only [stepEvent, animateTick, rippleTrigger, textTrigger,
      propsUpdate, onWindowResize, resolutionMatchesBuffer] at h ⊢ <;>
    first
    | (split_ifs <;> simp_all)
    | simp_all

/-- `stepEvent_resolution` extended to any event sequence. -/
lemma runEvents_resolution (evs : List Event) (s : EngineState)
    (h : resolutionMatchesBuffer s) :
    resolutionMatchesBuffer (runEvents evs s) := by
  induction evs generalizing s with
  | nil => exact h
  | cons e evs ih => exact ih (stepEvent e s) (stepEvent_resolution e s h)

/-- `initThreeJS` calls `onWindowResize` before the first draw, so the
agreement holds from the start. -/
lemma initEngine_resolution (ps w0 h0 : ℚ) (p : Props) (refs : Refs) :
    resolutionMatchesBuffer (initEngine ps w0 h0 p refs) := by
  simp [initEngine, onWindowResize, initialUniforms, resolutionMatchesBuffer]

/-! ## Claim theorems -/

/-- C5: a `rippleRequested` false-to-true edge that fires while
`isRipplingRef` is already set is a no-op — the effect body is guarded by
`!isRipplingRef.current`, so no second ripple starts, `rippleTimeRef` is
not reset, the in-flight ripple is unaffected, and nothing is queued (the
state is unchanged in every component). -/
theorem c5_reentrant_ripple_ignored (s : EngineState)
    (h : s.refs.isRippling = true) : rippleTrigger s = s := by
  simp [rippleTrigger, h]

/-- Witness for C5 at a concrete mid-ripple state. -/
theorem c5_reentrant_ripple_ignored_witness :
    rippleRipeState.refs.isRippling = true ∧
    rippleTrigger rippleRipeState = rippleRipeState :=
  ⟨rfl, c5_reentrant_ripple_ignored rippleRipeState rfl⟩

/-- C9: from a fresh mount with `progress = 0` and no ripple requested,
five ticks advance the `time` uniform by exactly five times the ambient
per-tick rate `0.015` (from its initial value `1`), while `isRippling`
stays `0` (ref and uniform) and `freezeTime` stays `0`. -/
theorem c9_five_ambient_ticks :
    (runEvents [Event.tick defaultProps, Event.tick defaultProps,
        Event.tick defaultProps, Event.tick defaultProps,
        Event.tick defaultProps]
      (initEngine 1 800 600 defaultProps Refs.initial)).uniforms.time
      = (initEngine 1 800 600 defaultProps Refs.initial).uniforms.time
        + 5 * (15/1000) ∧
    (runEvents [Event.tick defaultProps, Event.tick defaultProps,
        Event.tick defaultProps, Event.tick defaultProps,
        Event.tick defaultProps]
      (initEngine 1 800 600 defaultProps Refs.initial)).refs.isRippling
      = false ∧
    (runEvents [Event.tick defaultProps, Event.tick defaultProps,
        Event.tick defaultProps, Event.tick defaultProps,
        Event.tick defaultProps]
      (initEngine 1 800 600 defaultProps Refs.initial)).uniforms.isRippling
      = 0 ∧
    (runEvents [Event.tick defaultProps, Event.tick defaultProps,
        Event.tick defaultProps, Event.tick defaultProps,
        Event.tick defaultProps]
      (initEngine 1 800 600 defaultProps Refs.initial)).uniforms.freezeTime
      = 0 := by
  norm_num [runEvents, stepEvent, animateTick, initEngine, onWindowResize,
    initialUniforms, Refs.initial, defaultProps]

/-- C7: when the container and the GPU backend are present but
constructing the shader material throws, `initThreeJS` propagates the
error to its caller (there is no try/catch) and the component state is
unchanged — in particular `animate()` on line 434 is never reached, so no
frame loop is started. -/
theorem c7_shader_failure_surfaced_no_tick (env : InitEnv) (p : Props)
    (c : ComponentState) (hc : env.containerAvailable = true)
    (ht : env.threeAvailable = true) (hs : env.shaderCompiles = false) :
    initThreeJS env p c = (c, some InitError.shaderCompileFailed) ∧
    (initThreeJS env p c).1.animationScheduled = c.animationScheduled := by
  constructor <;> simp [initThreeJS, hc, ht, hs]

/-- Witness for C7 at a concrete failing environment and a fresh,
never-scheduled component. -/
theorem c7_shader_failure_surfaced_no_tick_witness :
    badShaderEnv.containerAvailable = true ∧
    badShaderEnv.threeAvailable = true ∧
    badShaderEnv.shaderCompiles = false ∧
    ComponentState.fresh.animationScheduled = false ∧
    initThreeJS badShaderEnv defaultProps ComponentState.fresh
      = (ComponentState.fresh, some InitError.shaderCompileFailed) :=
  ⟨rfl, rfl, rfl, rfl,
    (c7_shader_failure_surfaced_no_tick badShaderEnv defaultProps
      ComponentState.fresh rfl rfl rfl).1⟩

/-- C8: when the container or `window.THREE` is missing, `initThreeJS`
returns immediately — no error, no partial state (the component state is
exactly what it was) — and a later retry against an available backend
succeeds: no error, a scene is created and the frame loop is
scheduled. -/
theorem c8_backend_unavailable_noop_retryable (env env2 : InitEnv)
    (p p2 : Props) (c : ComponentState)
    (h : env.containerAvailable = false ∨ env.threeAvailable = false)
    (h1 : env2.containerAvailable = true) (h2 : env2.threeAvailable = true)
    (h3 : env2.shaderCompiles = true) :
    initThreeJS env p c = (c, none) ∧
    (initThreeJS env2 p2 (initThreeJS env p c).1).2 = none ∧
    (initThreeJS env2 p2 (initThreeJS env p c).1).1.animationScheduled
      = true ∧
    ((initThreeJS env2 p2 (initThreeJS env p c).1).1.scene).isSome
      = true := by
  have hno : initThreeJS env p c = (c, none) := by
    rcases h with h | h <;> simp [initThreeJS, h]
  refine ⟨hno, ?_, ?_, ?_⟩ <;> rw [hno] <;> simp [initThreeJS, h1, h2, h3]

/-- Witness for C8: the Three.js script is not yet loaded, then a retry
against a fully available environment succeeds. -/
theorem c8_backend_unavailable_noop_retryable_witness :
    noThreeEnv.threeAvailable = false ∧
    goodEnv.containerAvailable = true ∧
    goodEnv.threeAvailable = true ∧
    goodEnv.shaderCompiles = true ∧
    initThreeJS noThreeEnv defaultProps ComponentState.fresh
      = (ComponentState.fresh, none) ∧
    (initThreeJS goodEnv defaultProps
      (initThreeJS noThreeEnv defaultProps ComponentState.fresh).1).2
      = none ∧
    (initThreeJS goodEnv defaultProps
      (initThreeJS noThreeEnv defaultProps ComponentState.fresh).1).1.animationScheduled
      = true := by
  have h := c8_backend_unavailable_noop_retryable noThreeEnv goodEnv
    defaultProps defaultProps ComponentState.fresh (Or.inr rfl) rfl rfl rfl
  exact ⟨rfl, rfl, rfl, rfl, h.1, h.2.1, h.2.2.1⟩

/-- C2 (code-bug evidence): a successful mount registers exactly one
window resize listener, and the unmount cleanup (source lines 62-73)
cancels the scheduled animation frame and disposes the renderer but
contains no `removeEventListener` call, so after the cleanup the listener
installed during `initThreeJS` is still registered. -/
theorem c2_cleanup_leaves_resize_listener :
    (initThreeJS goodEnv defaultProps ComponentState.fresh).2 = none ∧
    (initThreeJS goodEnv defaultProps
      ComponentState.fresh).1.windowResizeListeners = 1 ∧
    (cleanupEffect (initThreeJS goodEnv defaultProps
      ComponentState.fresh).1).animationScheduled = false ∧
    ((cleanupEffect (initThreeJS goodEnv defaultProps
      ComponentState.fresh).1).scene.map
        (fun d => d.renderer.disposed)) = some true ∧
    (cleanupEffect (initThreeJS goodEnv defaultProps
      ComponentState.fresh).1).windowResizeListeners = 1 := by
  norm_num [initThreeJS, cleanupEffect, goodEnv, defaultProps,
    ComponentState.fresh, initEngine, onWindowResize, initialUniforms,
    Refs.initial, animateTick]

/-- C1 (code-bug evidence): `frozenState` is the state right after a
completion ripple finished (`hasCompletedRef` and `noMoreRingsRef` set,
`isRipplingRef` cleared, `freezeTime` captured).  A subsequent
`rippleRequested` false-to-true edge passes the effect's only guard
`!isRipplingRef.current` — `noMoreRingsRef` is written on line 410
("Prevent new rings") but never read — so a new ripple starts:
`isRippling` becomes `1` (ref and uniform), `rippleTimeRef` is reset to
`0`, and the next tick advances the new ripple to `0.04`. -/
theorem c1_frozen_edge_starts_new_ripple :
    frozenState.refs.hasCompleted = true ∧
    frozenState.refs.noMoreRings = true ∧
    frozenState.refs.isRippling = false ∧
    frozenState.uniforms.freezeTime = 2 ∧
    (rippleTrigger frozenState).refs.isRippling = true ∧
    (rippleTrigger frozenState).uniforms.isRippling = 1 ∧
    (rippleTrigger frozenState).refs.rippleTime = 0 ∧
    (animateTick completionProps
        (rippleTrigger frozenState)).refs.rippleTime = 4/100 := by
  norm_num [frozenState, rippleRipeState, animateTick, rippleTrigger,
    completionProps, initialUniforms, Refs.initial]

/-- C3 counterexample: at a concrete completion ripple whose incremented
`rippleTime` reaches `1.0`, the code resets both `isRippling` (ref and
uniform) and `rippleTimeRef` to `0` — the reset on source lines 403-405
is unconditional, so the claimed "completion ripples do not reset" is
false. -/
theorem c3_completion_ripple_also_resets :
    completionProps.isCompleteRipple = true ∧
    rippleRipeState.refs.isRippling = true ∧
    rippleRipeState.refs.rippleTime + 4/100 = 1 ∧
    (animateTick completionProps rippleRipeState).refs.isRippling
      = false ∧
    (animateTick completionProps rippleRipeState).refs.rippleTime = 0 ∧
    (animateTick completionProps rippleRipeState).uniforms.isRippling
      = 0 := by
  norm_num [rippleRipeState, animateTick, completionProps,
    initialUniforms, Refs.initial]

/-- C3 (amended): while `isRippling` is set, each tick increments the
ripple clock by the fixed `0.04` (published to the `rippleTime` uniform),
so it strictly increases; as long as the incremented value stays below
`1.0` the ripple keeps running, and on the tick where it reaches `1.0`
both `rippleTimeRef` and `isRippling` reset to `0` — for every ripple,
the completion ripple included (it additionally freezes the engine). -/
theorem c3_ripple_progress_and_reset (p : Props) (s : EngineState)
    (h : s.refs.isRippling = true) :
    (animateTick p s).uniforms.rippleTime = s.refs.rippleTime + 4/100 ∧
    s.refs.rippleTime < s.refs.rippleTime + 4/100 ∧
    (s.refs.rippleTime + 4/100 < 1 →
      (animateTick p s).refs.isRippling = true ∧
      (animateTick p s).refs.rippleTime = s.refs.rippleTime + 4/100) ∧
    (1 ≤ s.refs.rippleTime + 4/100 →
      (animateTick p s).refs.isRippling = false ∧
      (animateTick p s).refs.rippleTime = 0 ∧
      (animateTick p s).uniforms.isRippling = 0) := by
  refine ⟨?_, by linarith, ?_, ?_⟩ <;>
    simp only [animateTick, h] <;>
    split_ifs with h1 h2 <;>
    simp_all

/-- Witness for C3 (amended) at the concrete ripe completion ripple. -/
theorem c3_ripple_progress_and_reset_witness :
    rippleRipeState.refs.isRippling = true ∧
    (1:ℚ) ≤ rippleRipeState.refs.rippleTime + 4/100 ∧
    (animateTick completionProps rippleRipeState).uniforms.rippleTime
      = rippleRipeState.refs.rippleTime + 4/100 ∧
    (animateTick completionProps rippleRipeState).refs.isRippling
      = false ∧
    (animateTick completionProps rippleRipeState).refs.rippleTime
      = 0 := by
  have h := c3_ripple_progress_and_reset completionProps rippleRipeState
    rfl
  have hle : (1:ℚ) ≤ rippleRipeState.refs.rippleTime + 4/100 := by
    norm_num [rippleRipeState, Refs.initial]
  exact ⟨rfl, hle, h.1, (h.2.2.2 hle).1, (h.2.2.2 hle).2.1⟩

/-- C4: on the tick where a ripple flagged as the completion ripple
reaches `rippleTime ≥ 1.0`, the `freezeTime` uniform is set to the exact
current value of the `time` uniform, the `time` uniform does not advance
on that tick (the guard reads `hasCompletedRef` after it was just set),
and after any further sequence of ticks, edges, prop changes and resizes
the `time` uniform still holds that same value. -/
theorem c4_completion_freezes_time (p : Props) (s : EngineState)
    (evs : List Event) (hr : s.refs.isRippling = true)
    (hreach : 1 ≤ s.refs.rippleTime + 4/100)
    (hc : p.isCompleteRipple = true) :
    (animateTick p s).uniforms.freezeTime = s.uniforms.time ∧
    (animateTick p s).uniforms.time = s.uniforms.time ∧
    (animateTick p s).refs.hasCompleted = true ∧
    (runEvents evs (animateTick p s)).uniforms.time = s.uniforms.time := by
  have key : (animateTick p s).uniforms.freezeTime = s.uniforms.time ∧
      (animateTick p s).uniforms.time = s.uniforms.time ∧
      (animateTick p s).refs.hasCompleted = true := by
    simp only [animateTick, hr, hc]
    split_ifs with h1 <;> simp_all
  obtain ⟨k1, k2, k3⟩ := key
  obtain ⟨-, h4⟩ := runEvents_frozen evs (animateTick p s) k3
  exact ⟨k1, k2, k3, h4.trans k2⟩

/-- Witness for C4 at the concrete ripe completion ripple, followed by a
concrete mix of further events. -/
theorem c4_completion_freezes_time_witness :
    rippleRipeState.refs.isRippling = true ∧
    (1:ℚ) ≤ rippleRipeState.refs.rippleTime + 4/100 ∧
    completionProps.isCompleteRipple = true ∧
    (animateTick completionProps rippleRipeState).uniforms.freezeTime
      = rippleRipeState.uniforms.time ∧
    (runEvents [Event.rippleEdge, Event.tick completionProps,
        Event.textEdge, Event.tick defaultProps, Event.resize 192 108,
        Event.propsChange 1 2 3, Event.tick defaultProps]
      (animateTick completionProps rippleRipeState)).uniforms.time
      = rippleRipeState.uniforms.time := by
  have hle : (1:ℚ) ≤ rippleRipeState.refs.rippleTime + 4/100 := by
    norm_num [rippleRipeState, Refs.initial]
  have h := c4_completion_freezes_time completionProps rippleRipeState
    [Event.rippleEdge, Event.tick completionProps, Event.textEdge,
     Event.tick defaultProps, Event.resize 192 108,
     Event.propsChange 1 2 3, Event.tick defaultProps] rfl hle rfl
  exact ⟨rfl, hle, rfl, h.1, h.2.2.2⟩

/-- C6: a resize applied at any reachable state sets the resolution
uniform and the drawable buffer size to the same new values (the CSS size
scaled by the device pixel scale) in one synchronous call; the next tick
reads exactly that resolution; and every state reachable from a mount —
hence every drawn frame — has the resolution uniform equal to the
drawable buffer size, never a stale one. -/
theorem c6_resize_resolution_roundtrip (ps w0 h0 w h : ℚ) (p p2 : Props)
    (refs : Refs) (evs evs2 : List Event) :
    (stepEvent (Event.resize w h)
      (runEvents evs (initEngine ps w0 h0 p refs))).uniforms.resolutionX
      = w * ps ∧
    (stepEvent (Event.resize w h)
      (runEvents evs (initEngine ps w0 h0 p refs))).uniforms.resolutionY
      = h * ps ∧
    (stepEvent (Event.resize w h)
      (runEvents evs (initEngine ps w0 h0 p refs))).renderer.domElementW
      = w * ps ∧
    (stepEvent (Event.resize w h)
      (runEvents evs (initEngine ps w0 h0 p refs))).renderer.domElementH
      = h * ps ∧
    (animateTick p2 (stepEvent (Event.resize w h)
      (runEvents evs (initEngine ps w0 h0 p refs)))).uniforms.resolutionX
      = w * ps ∧
    (animateTick p2 (stepEvent (Event.resize w h)
      (runEvents evs (initEngine ps w0 h0 p refs)))).uniforms.resolutionY
      = h * ps ∧
    resolutionMatchesBuffer
      (runEvents evs2 (runEvents evs (initEngine ps w0 h0 p refs))) := by
  have hps : (runEvents evs (initEngine ps w0 h0 p refs)).renderer.pixelScale
      = ps := by
    rw [runEvents_pixelScale]
    simp [initEngine, onWindowResize]
  obtain ⟨hx, hy, -⟩ := animateTick_resolution p2
    (stepEvent (Event.resize w h) (runEvents evs (initEngine ps w0 h0 p refs)))
  refine ⟨?_, ?_, ?_, ?_, ?_, ?_, ?_⟩
  · simp [stepEvent, onWindowResize, hps]
  · simp [stepEvent, onWindowResize, hps]
  · simp [stepEvent, onWindowResize, hps]
  · simp [stepEvent, onWindowResize, hps]
  · rw [hx]; simp [stepEvent, onWindowResize, hps]
  · rw [hy]; simp [stepEvent, onWindowResize, hps]
  · exact runEvents_resolution evs2 _
      (runEvents_resolution evs _ (initEngine_resolution ps w0 h0 p refs))

/-- C10: once the text-reveal timer has been started
(`isTextAnimatingRef` set), a later `textAnimation` edge is a no-op (the
guard flag is never cleared, so `textTime` is never reset to `0` again);
no event clears the flag; and every tick adds exactly `0.015` to the
timer (ref and uniform), whatever the props and whatever the ripple or
freeze state of the engine. -/
theorem c10_text_timer_monotone (s : EngineState)
    (h : s.refs.isTextAnimating = true) :
    textTrigger s = s ∧
    (∀ e : Event, (stepEvent e s).refs.isTextAnimating = true) ∧
    (∀ p : Props,
      (animateTick p s).refs.textTime = s.refs.textTime + 15/1000 ∧
      (animateTick p s).uniforms.textTime
        = s.refs.textTime + 15/1000) := by
  refine ⟨by simp [textTrigger, h], ?_, ?_⟩
  · intro e
    cases e <;>
      simp only [stepEvent, animateTick, rippleTrigger, textTrigger,
        propsUpdate, onWindowResize] <;>
      first
      | (split_ifs <;> simp_all)
      | simp_all
  · intro p
    constructor <;>
      simp only [animateTick] <;>
      split_ifs <;>
      simp_all

/-- Witness for C10 at a concrete started text timer, against a ripple
edge and a completion tick. -/
theorem c10_text_timer_monotone_witness :
    textState.refs.isTextAnimating = true ∧
    textTrigger textState = textState ∧
    (stepEvent Event.rippleEdge textState).refs.isTextAnimating = true ∧
    (animateTick completionProps textState).refs.textTime
      = textState.refs.textTime + 15/1000 := by
  obtain ⟨a, b, c⟩ := c10_text_timer_monotone textState rfl
  exact ⟨rfl, a, b Event.rippleEdge, (c completionProps).1⟩
